import Mathlib

/-!
Shallow embedding of `chatbot.py` (universalchatbot): a CLI dispatcher that
routes user text to one of three text-generation backends (grok / openai /
cohere), keeps a bounded rolling conversation history, and renders replies.

Modelling conventions:
* Python dicts `{"role": r, "content": c}` become the `Message` structure.
* Python `None` / optional arguments become `Option`; Python truthiness of a
  history argument (`if conversation_history:`) is `none` or `some []` vs
  `some (non-empty)`.
* A Python function that can raise an exception is embedded as
  `Except String α` (the error carries the exception message).
* The HTTP collaborator behind `requests.post` is an oracle
  (`GrokNet`); the vendor SDK clients are oracle structures
  (`OpenAIClient`, `CohereClient`) whose single method models the one call
  the adapter makes.
* The `tenacity` `@retry(stop=stop_after_attempt(3), ...)` decorator is
  embedded as `retryRun`: it re-invokes the body while the body *raises*,
  up to 3 attempts, and also reports how many times the body ran.
-/

namespace Chatbot

/-- A chat message: Python dict `{"role": ..., "content": ...}`. -/
structure Message where
  role : String
  content : String
deriving Repr, DecidableEq

/-- Whitespace characters recognised by Python `str.strip()` (ASCII fragment:
space, tab, newline, carriage return, vertical tab, form feed). -/
def pyIsSpace (c : Char) : Bool :=
  c == ' ' || c == '\t' || c == '\n' || c == '\r' || c == '\x0b' || c == '\x0c'

/-- Python `str.strip()`: drop leading and trailing whitespace. -/
def pyStrip (s : String) : String :=
  String.mk (((s.data.dropWhile pyIsSpace).reverse.dropWhile pyIsSpace).reverse)

/-- `validate_input` (chatbot.py lines 182-189): reject whitespace-only input,
then input longer than 500 characters, then input containing any of the
characters `<`, `>`, `\x7b`, `\x7d`; accept everything else.  Returns the pair
`(is_valid, error_msg)` exactly as the Python function does. -/
def validate_input (user_input : String) : Bool × String :=
  if pyStrip user_input = "" then
    (false, "Input cannot be empty. Please provide some details.")
  else if user_input.length > 500 then
    (false, "Input is too long. Please keep it under 500 characters.")
  else if user_input.data.any (fun c => c == '<' || c == '>' || c == '\x7b' || c == '\x7d') then
    (false, "Input contains invalid characters (e.g., <, >, \x7b\x7d).")
  else
    (true, "")

/-- The history serialisation inside `build_prompt` (line 66):
joining each message, rendered as role-colon-space-content, with newlines. -/
def history_text (conversation_history : List Message) : String :=
  String.intercalate "\n" (conversation_history.map (fun msg => msg.role ++ ": " ++ msg.content))

/-- `build_prompt` (lines 63-68).  `base_prompt = f"Act as a {base_role}. {extra_instructions}"`;
with a truthy (present, non-empty) history the result is
`f"{history_text}\n{base_prompt}{prompt}"`, otherwise `base_prompt + prompt`. -/
def build_prompt (base_role : String) (prompt : String)
    (conversation_history : Option (List Message)) (extra_instructions : String) : String :=
  let base_prompt := "Act as a " ++ base_role ++ ". " ++ extra_instructions
  match conversation_history with
  | some hist =>
    if hist.isEmpty then base_prompt ++ prompt
    else history_text hist ++ "\n" ++ base_prompt ++ prompt
  | none => base_prompt ++ prompt

/-- `trim_conversation_history` (lines 198-199):
`history[-max_messages:] if len(history) > max_messages else history`.
Note the Python slice `history[-0:]` is the whole list, hence the `max_messages = 0`
case returns `history` unchanged. -/
def trim_conversation_history (history : List Message) (max_messages : Nat) : List Message :=
  if history.length > max_messages then
    if max_messages = 0 then history
    else history.drop (history.length - max_messages)
  else history

/-- One entry of the cohere provider `chat_history` parameter: Python dict
`{"role": ..., "message": ...}` (note the key is `message`, not `content`). -/
structure CohereMsg where
  role : String
  message : String
deriving Repr, DecidableEq

/-- The cohere chat-history conversion inside `get_cohere_response`
(lines 112-113): `[{"role": "User" if msg["role"] == "user" else "Chatbot",
"message": msg["content"]} for msg in conversation_history] if conversation_history else []`. -/
def cohere_chat_history (conversation_history : Option (List Message)) : List CohereMsg :=
  match conversation_history with
  | some h =>
    if h.isEmpty then []
    else h.map (fun msg => CohereMsg.mk (if msg.role = "user" then "User" else "Chatbot") msg.content)
  | none => []

/-- Oracle for `co_client.chat(message=..., preamble=..., chat_history=...,
model=..., max_tokens=300, temperature=0.7)`: arguments are, in order, the
message, the preamble, the chat history and the model; the outcome is the
reply text or the message of the raised exception. -/
structure CohereClient where
  chat : String → String → List CohereMsg → String → Except String String

/-- The soft-failure reply string built by `get_cohere_response` (line 120). -/
def cohereOopsMsg (err : String) : String :=
  "Oops, something broke with Cohere! Error: " ++ err

/-- `get_cohere_response` (lines 108-120): raises `ValueError` when the client
is absent; otherwise builds the preamble with `build_prompt` on an *empty*
user text, converts history via `cohere_chat_history`, calls the client, and
converts any client failure into a normally-returned "Oops" string. -/
def get_cohere_response (prompt : String) (model : String)
    (conversation_history : Option (List Message)) (co_client : Option CohereClient) :
    Except String String :=
  match co_client with
  | none => Except.error "Cohere client must be provided"
  | some client =>
    let base_prompt := build_prompt "physical security consultant" "" conversation_history ""
    let chat_history := cohere_chat_history conversation_history
    match client.chat prompt base_prompt chat_history model with
    | Except.ok text => Except.ok text
    | Except.error e => Except.ok (cohereOopsMsg e)

/-- Oracle for `openai_client.chat.completions.create(model=..., messages=...,
max_tokens=300)`: arguments are the model and the message list; the outcome is
the reply content or the message of the raised exception. -/
structure OpenAIClient where
  create : String → List Message → Except String String

/-- The message list built by `get_openai_response` (lines 97-100): the
composed current turn as a single user message, prefixed — when history is
truthy — by a role/content copy of every history entry. -/
def openai_messages (prompt : String) (conversation_history : Option (List Message)) :
    List Message :=
  let full_prompt := build_prompt "physical security consultant" prompt conversation_history ""
  let messages := [Message.mk "user" full_prompt]
  match conversation_history with
  | some h => if h.isEmpty then messages
              else h.map (fun msg => Message.mk msg.role msg.content) ++ messages
  | none => messages

/-- `get_openai_response` (lines 94-105): raises `ValueError` when the client
is absent; otherwise calls the client on `openai_messages` and re-raises any
client failure wrapped as `"OpenAI API error: ..."` (hard failure). -/
def get_openai_response (prompt : String) (model : String)
    (conversation_history : Option (List Message)) (openai_client : Option OpenAIClient) :
    Except String String :=
  match openai_client with
  | none => Except.error "OpenAI client must be provided"
  | some client =>
    match client.create model (openai_messages prompt conversation_history) with
    | Except.ok reply => Except.ok reply
    | Except.error e => Except.error ("OpenAI API error: " ++ e)

/-- Outcome of one grok HTTP attempt, i.e. of
`requests.post(...); resp.raise_for_status(); resp.json()["choices"][0]["message"]["content"]`:
* `success content` — 2xx response with a well-formed body;
* `reqFailure err details` — a `requests.exceptions.RequestException` was
  raised (connection error, timeout, or `raise_for_status` on a non-2xx),
  with the exception text and the response-body details;
* `badShape err` — the HTTP exchange succeeded but the JSON lacks the
  `choices[0].message.content` path, so a `KeyError`/`IndexError` (NOT a
  `RequestException`) is raised. -/
inductive GrokOutcome where
  | success (content : String)
  | reqFailure (err : String) (details : String)
  | badShape (err : String)
deriving Repr, DecidableEq

/-- The HTTP collaborator behind the grok adapter: given the model, the
composed full prompt and the (0-based) attempt number, produce the outcome
of that attempt. -/
def GrokNet : Type := String → String → Nat → GrokOutcome

/-- The soft-failure reply string built by `get_grok_response` (line 88). -/
def grokOopsMsg (err : String) (details : String) : String :=
  "Oops, something broke! Error: " ++ err ++ ". Details: " ++ details

/-- The `requests.post` + response-processing layer of one grok attempt.
`requests.post(None, ...)` raises `MissingSchema`, a `RequestException`,
before any network traffic, so an absent URL yields a `reqFailure` without
consulting the network oracle. -/
def grokHttp (grok_url : Option String) (net : GrokNet)
    (model : String) (full_prompt : String) (attempt : Nat) : GrokOutcome :=
  match grok_url with
  | none => GrokOutcome.reqFailure "Invalid URL None" "No response received"
  | some _ => net model full_prompt attempt

/-- The body of `get_grok_response` (lines 74-91), i.e. one attempt as seen by
the `tenacity` wrapper: it builds the full prompt, performs the HTTP exchange,
*catches* `requests.exceptions.RequestException` and turns it into a normally
returned "Oops" string (soft failure), and lets any other exception (the
`badShape` case) propagate. `grok_headers` is forwarded to the HTTP layer as
in the source but never branched on. -/
def grokBody (prompt : String) (model : String) (use_deep_search : Bool)
    (conversation_history : Option (List Message)) (grok_url : Option String)
    (grok_headers : Option (List (String × String))) (net : GrokNet) (attempt : Nat) :
    Except String String :=
  let _ := grok_headers
  let extra := if use_deep_search then
    "Use DeepSearch to analyze recent X posts and provide insights. " else ""
  let full_prompt := build_prompt "physical security consultant" prompt conversation_history extra
  match grokHttp grok_url net model full_prompt attempt with
  | GrokOutcome.success content => Except.ok content
  | GrokOutcome.reqFailure err details => Except.ok (grokOopsMsg err details)
  | GrokOutcome.badShape err => Except.error err

/-- `tenacity` `@retry(stop=stop_after_attempt(n+1), ...)` over a body that
may raise: run `body made`; a normal return ends the loop, a raise is retried
while fuel remains.  Returns the final outcome together with the number of
times the body was executed. -/
def retryRun (body : Nat → Except String String) (made : Nat) :
    Nat → Except String String × Nat
  | 0 =>
    (match body made with
     | Except.ok a => (Except.ok a, made + 1)
     | Except.error e => (Except.error e, made + 1))
  | fuel + 1 =>
    match body made with
    | Except.ok a => (Except.ok a, made + 1)
    | Except.error _ => retryRun body (made + 1) fuel

/-- `get_grok_response` with its `@retry(stop=stop_after_attempt(3),
wait=wait_exponential(multiplier=1, min=4, max=10))` decorator (lines 71-91):
the wrapped body under at most 3 attempts, returning the outcome and the
number of attempts actually made. -/
def get_grok_run (prompt : String) (model : String) (use_deep_search : Bool)
    (conversation_history : Option (List Message)) (grok_url : Option String)
    (grok_headers : Option (List (String × String))) (net : GrokNet) :
    Except String String × Nat :=
  retryRun (grokBody prompt model use_deep_search conversation_history grok_url grok_headers net) 0 2

/-- What `get_grok_response(...)` returns to its caller (or raises, as
`Except.error`). -/
def get_grok_response (prompt : String) (model : String) (use_deep_search : Bool)
    (conversation_history : Option (List Message)) (grok_url : Option String)
    (grok_headers : Option (List (String × String))) (net : GrokNet) :
    Except String String :=
  (get_grok_run prompt model use_deep_search conversation_history grok_url grok_headers net).fst

/-- How many times the body of `get_grok_response` (one HTTP attempt) was
executed during the call. -/
def get_grok_attempts (prompt : String) (model : String) (use_deep_search : Bool)
    (conversation_history : Option (List Message)) (grok_url : Option String)
    (grok_headers : Option (List (String × String))) (net : GrokNet) : Nat :=
  (get_grok_run prompt model use_deep_search conversation_history grok_url grok_headers net).snd

/-- The `tenacity` `wait_exponential(multiplier=1, min=4, max=10)` wait, in
seconds, before retrying after the (1-based) failed attempt `n`:
`min(max(multiplier * 2^(n-1), min), max)`. -/
def grokRetryWait (n : Nat) : Nat :=
  min (max (2 ^ (n - 1)) 4) 10

/-- `fetch_x_trends` (lines 202-204): a placeholder constant. -/
def fetch_x_trends (query : String) : String :=
  let _ := query
  "Recent X posts suggest a rise in smart lock vulnerabilities (placeholder)."

/-- The keys of the `SERVICE_HANDLERS` dict (lines 140-145). -/
def SERVICE_HANDLERS : List String := ["grok", "openai", "cohere"]

/-- The `SERVICE_MODELS` dict (lines 148-153). -/
def SERVICE_MODELS : List (String × List String) :=
  [("grok", ["grok-2", "grok-2-mini"]),
   ("openai", ["gpt-4o", "gpt-3.5-turbo", "gpt-4-turbo"]),
   ("cohere", ["command-r", "command"])]

/-- `SERVICE_MODELS.get(service, [])`. -/
def serviceModels (service : String) : List String :=
  ((SERVICE_MODELS.lookup service).getD [])

/-- The `Config` object (lines 22-37) with its backend collaborators replaced
by oracles: the grok URL and headers, and the two SDK clients constructed in
`__post_init__`. -/
structure Config where
  grok_api_url : String
  grok_headers : List (String × String)
  openai_client : OpenAIClient
  co_client : CohereClient

/-- `get_response` (lines 156-179): resolve the handler by service name
(raise `Unknown service` if absent), check the model against
`SERVICE_MODELS.get(service, [])` (raise `Model ... not supported` if absent),
optionally append the deep-search context line to the prompt, then invoke the
resolved adapter with exactly the arguments its signature accepts (the effect
of the `inspect.signature` filtering in the source). The network oracle `net`
stands for the ambient HTTP collaborator used by the grok adapter. -/
def get_response (prompt : String) (service : String) (model : String)
    (deep_search : Bool) (conversation_history : Option (List Message))
    (config : Config) (net : GrokNet) : Except String String :=
  if ¬ SERVICE_HANDLERS.contains service then
    Except.error ("Unknown service: " ++ service)
  else if ¬ (serviceModels service).contains model then
    Except.error ("Model " ++ model ++ " not supported for " ++ service)
  else
    let prompt := if deep_search then
      prompt ++ "\nAdditional context: " ++ fetch_x_trends prompt else prompt
    if service = "grok" then
      get_grok_response prompt model deep_search conversation_history
        (some config.grok_api_url) (some config.grok_headers) net
    else if service = "openai" then
      get_openai_response prompt model conversation_history (some config.openai_client)
    else if service = "cohere" then
      get_cohere_response prompt model conversation_history (some config.co_client)
    else
      Except.error ("Unknown service: " ++ service)

/-- One user *message* turn of the `__main__` loop (lines 247-257), after the
command branches: append the user message, trim to 10, then dispatch; a normal
reply (including every soft-failure "Oops" string) is appended as an assistant
message, while a raised exception is caught (`except Exception`) and nothing
further is appended.  `reply` is the outcome of the `get_response` call. -/
def processUserTurn (history : List Message) (user_input : String)
    (reply : Except String String) : List Message :=
  let history1 := history ++ [Message.mk "user" user_input]
  let history2 := trim_conversation_history history1 10
  match reply with
  | Except.ok r => history2 ++ [Message.mk "assistant" r]
  | Except.error _ => history2

/-- The session loop restricted to its history-touching branch: starting from
the empty history, process a sequence of message turns, each given with the
outcome of its dispatch.  The command branches (`help`, `exit`, `switch to`,
`set model`) and validation rejections never touch the history, so every
append the loop ever performs occurs inside `processUserTurn`. -/
def runSession (turns : List (String × Except String String)) : List Message :=
  turns.foldl (fun h t => processUserTurn h t.fst t.snd) []

/-- A concrete two-entry history used as a witness fixture. -/
def hist2 : List Message :=
  [Message.mk "user" "Hello", Message.mk "assistant" "Hi there"]

/-- A concrete 15-entry history used as a witness fixture (`Msg 0` .. `Msg 14`,
mirroring the repository test `test_trim_conversation_history`). -/
def hist15 : List Message :=
  (List.range 15).map (fun i => Message.mk "user" ("Msg " ++ toString i))

/-- A concrete configuration whose oracles always succeed, used as a witness
fixture. -/
def cfg0 : Config :=
  Config.mk "https://api.x.ai/v1/chat/completions"
    [("Authorization", "Bearer test"), ("Content-Type", "application/json")]
    (OpenAIClient.mk (fun _ _ => Except.ok "OpenAI response"))
    (CohereClient.mk (fun _ _ _ _ => Except.ok "Cohere response"))

/-- A network oracle that always succeeds, used as a witness fixture. -/
def netOk : GrokNet := fun _ _ _ => GrokOutcome.success "Grok response"

/-! ## Helper lemmas -/

/-- `str.strip()` is empty exactly when every character of the string is
whitespace. -/
theorem pyStrip_eq_empty_iff (s : String) : pyStrip s = "" ↔ s.data.all pyIsSpace := by
  unfold pyStrip
  constructor
  · intro h
    have h' : ((s.data.dropWhile pyIsSpace).reverse.dropWhile pyIsSpace).reverse = [] := by
      have := congrArg String.data h
      simpa using this
    rw [List.reverse_eq_nil_iff, List.dropWhile_eq_nil_iff] at h'
    rw [List.all_eq_true]
    intro x hx
    rw [← List.takeWhile_append_dropWhile pyIsSpace s.data, List.mem_append] at hx
    rcases hx with hx | hx
    · exact List.mem_takeWhile_imp hx
    · exact h' x (List.mem_reverse.mpr hx)
  · intro h
    have h' : s.data.dropWhile pyIsSpace = [] := by
      rw [List.dropWhile_eq_nil_iff]
      intro x hx
      exact (List.all_eq_true).mp h x hx
    rw [h']
    rfl

/-- Trimming to 10 always leaves at most 10 entries. -/
theorem trim_length_le_ten (h : List Message) :
    (trim_conversation_history h 10).length ≤ 10 := by
  unfold trim_conversation_history
  by_cases hgt : h.length > 10
  · simp only [hgt, if_true]
    rw [if_neg (by omega)]
    rw [List.length_drop]
    omega
  · rw [if_neg hgt]
    omega

/-- A history no longer than the maximum is left unchanged by trimming. -/
theorem trim_of_length_le (h : List Message) (m : Nat) (hle : h.length ≤ m) :
    trim_conversation_history h m = h := by
  unfold trim_conversation_history
  rw [if_neg (by omega)]

/-- A structure-eta helper: rebuilding a `Message` from its fields is the
identity, so the history copy made by the openai adapter is the history itself. -/
theorem message_copy_map (h : List Message) :
    h.map (fun msg => Message.mk msg.role msg.content) = h := by
  simp

/-- The grok soft-failure reply always starts with `"Oops"`. -/
theorem grokOopsMsg_head (err details : String) :
    grokOopsMsg err details
      = "Oops" ++ (", something broke! Error: " ++ (err ++ (". Details: " ++ details))) := by
  unfold grokOopsMsg
  rw [show ("Oops, something broke! Error: " : String)
        = "Oops" ++ ", something broke! Error: " from rfl]
  simp only [String.append_assoc]

/-- The cohere soft-failure reply always starts with `"Oops"`. -/
theorem cohereOopsMsg_head (err : String) :
    cohereOopsMsg err = "Oops" ++ (", something broke with Cohere! Error: " ++ err) := by
  unfold cohereOopsMsg
  rw [show ("Oops, something broke with Cohere! Error: " : String)
        = "Oops" ++ ", something broke with Cohere! Error: " from rfl]
  simp only [String.append_assoc]

/-- One loop turn grows the history by at most one beyond the trim bound. -/
theorem processUserTurn_length_le (h : List Message) (input : String)
    (reply : Except String String) : (processUserTurn h input reply).length ≤ 11 := by
  have ht := trim_length_le_ten (h ++ [Message.mk "user" input])
  cases reply with
  | ok r =>
    simp only [processUserTurn, List.length_append, List.length_cons, List.length_nil]
    omega
  | error e =>
    simp only [processUserTurn]
    omega

/-! ## Claim theorems -/

set_option maxRecDepth 8000 in
/-- C7: `validate_input` applies its rules in order with first match winning:
whitespace-only text is rejected as empty input; otherwise text longer than
500 characters is rejected as too long; otherwise text containing `<`, `>`,
`\x7b` or `\x7d` is rejected as invalid characters; every other text is
accepted.  In particular a whitespace-only string of 501 characters is
rejected as empty, and a 500-character string of `a`s is accepted. -/
theorem validate_input_first_match_rules :
    (∀ s : String, s.data.all pyIsSpace →
      validate_input s = (false, "Input cannot be empty. Please provide some details."))
    ∧ (∀ s : String, ¬ s.data.all pyIsSpace → s.length > 500 →
      validate_input s = (false, "Input is too long. Please keep it under 500 characters."))
    ∧ (∀ s : String, ¬ s.data.all pyIsSpace → ¬ s.length > 500 →
      s.data.any (fun c => c == '<' || c == '>' || c == '\x7b' || c == '\x7d') →
      validate_input s = (false, "Input contains invalid characters (e.g., <, >, \x7b\x7d)."))
    ∧ (∀ s : String, ¬ s.data.all pyIsSpace → ¬ s.length > 500 →
      ¬ (s.data.any (fun c => c == '<' || c == '>' || c == '\x7b' || c == '\x7d') = true) →
      validate_input s = (true, ""))
    ∧ validate_input (String.mk (List.replicate 501 ' '))
        = (false, "Input cannot be empty. Please provide some details.")
    ∧ validate_input (String.mk (List.replicate 500 'a')) = (true, "") := by
  refine ⟨?_, ?_, ?_, ?_, ?_, ?_⟩
  · intro s hs
    have he : pyStrip s = "" := (pyStrip_eq_empty_iff s).mpr hs
    unfold validate_input
    rw [if_pos he]
  · intro s hs hlen
    have he : ¬ pyStrip s = "" := fun hc => hs ((pyStrip_eq_empty_iff s).mp hc)
    unfold validate_input
    rw [if_neg he, if_pos hlen]
  · intro s hs hlen hbad
    have he : ¬ pyStrip s = "" := fun hc => hs ((pyStrip_eq_empty_iff s).mp hc)
    unfold validate_input
    rw [if_neg he, if_neg hlen, if_pos hbad]
  · intro s hs hlen hok
    have he : ¬ pyStrip s = "" := fun hc => hs ((pyStrip_eq_empty_iff s).mp hc)
    unfold validate_input
    rw [if_neg he, if_neg hlen, if_neg hok]
  · decide
  · decide

set_option maxRecDepth 8000 in
/-- Witness for C7: the rules evaluated at concrete inputs through the
theorem itself. -/
theorem validate_input_first_match_rules_witness :
    validate_input "   " = (false, "Input cannot be empty. Please provide some details.")
    ∧ validate_input (String.mk (List.replicate 501 'a'))
        = (false, "Input is too long. Please keep it under 500 characters.")
    ∧ validate_input "Test <script" = (false, "Input contains invalid characters (e.g., <, >, \x7b\x7d).")
    ∧ validate_input "What is the best lock" = (true, "") :=
  ⟨validate_input_first_match_rules.1 "   " (by decide),
   validate_input_first_match_rules.2.1 (String.mk (List.replicate 501 'a')) (by decide) (by decide),
   validate_input_first_match_rules.2.2.1 "Test <script" (by decide) (by decide) (by decide),
   validate_input_first_match_rules.2.2.2.1 "What is the best lock" (by decide) (by decide) (by decide)⟩

/-- C8: `build_prompt` composes exactly `header = "Act as a " + persona + ". "
+ extra_instructions`; with a present non-empty history the result is the
messages serialised as `"<role>: <content>"` joined by newlines, then a single
newline, then the header, then the user text; with an absent or empty history
it is header + user text.  In particular
`build_prompt "physical security consultant" "X" none ""` is exactly
`"Act as a physical security consultant. X"`. -/
theorem build_prompt_composition :
    (∀ persona prompt extra : String,
      build_prompt persona prompt none extra = "Act as a " ++ persona ++ ". " ++ extra ++ prompt)
    ∧ (∀ persona prompt extra : String,
      build_prompt persona prompt (some []) extra
        = "Act as a " ++ persona ++ ". " ++ extra ++ prompt)
    ∧ (∀ (persona prompt extra : String) (h : List Message), h ≠ [] →
      build_prompt persona prompt (some h) extra
        = String.intercalate "\n" (h.map (fun m => m.role ++ ": " ++ m.content))
          ++ "\n" ++ ("Act as a " ++ persona ++ ". " ++ extra) ++ prompt)
    ∧ build_prompt "physical security consultant" "X" none ""
        = "Act as a physical security consultant. X" := by
  refine ⟨fun _ _ _ => rfl, fun _ _ _ => rfl, ?_, rfl⟩
  intro persona prompt extra h hne
  cases h with
  | nil => exact absurd rfl hne
  | cons a t => rfl

/-- Witness for C8: the non-empty-history composition evaluated at a concrete
history through the theorem itself. -/
theorem build_prompt_composition_witness :
    hist2 ≠ []
    ∧ build_prompt "p" "X" (some hist2) "E"
        = String.intercalate "\n" (hist2.map (fun m => m.role ++ ": " ++ m.content))
          ++ "\n" ++ ("Act as a " ++ "p" ++ ". " ++ "E") ++ "X"
    ∧ build_prompt "p" "X" (some hist2) "E" = "user: Hello\nassistant: Hi there\nAct as a p. EX" := by
  refine ⟨by decide, build_prompt_composition.2.2.1 "p" "X" "E" hist2 (by decide), ?_⟩
  rw [build_prompt_composition.2.2.1 "p" "X" "E" hist2 (by decide)]
  rfl

/-- C9: `trim_conversation_history` with maximum 10 keeps only the most recent
10 entries in original order — unchanged when the length is at most 10,
otherwise exactly the last 10 are kept; on a 15-element history the result is
the last 10 elements, its first element being the element at original index 5;
and trimming is idempotent. -/
theorem trim_tail_slice_semantics :
    (∀ h : List Message, h.length ≤ 10 → trim_conversation_history h 10 = h)
    ∧ (∀ h : List Message, h.length > 10 →
        trim_conversation_history h 10 = h.drop (h.length - 10)
        ∧ (trim_conversation_history h 10).length = 10)
    ∧ (∀ h : List Message, h.length = 15 →
        trim_conversation_history h 10 = h.drop 5
        ∧ (trim_conversation_history h 10).head? = h[5]?)
    ∧ (∀ (h : List Message) (m : Nat),
        trim_conversation_history (trim_conversation_history h m) m
          = trim_conversation_history h m) := by
  refine ⟨?_, ?_, ?_, ?_⟩
  · intro h hle
    unfold trim_conversation_history
    rw [if_neg (by omega)]
  · intro h hgt
    have e : trim_conversation_history h 10 = h.drop (h.length - 10) := by
      unfold trim_conversation_history
      rw [if_pos hgt, if_neg (by omega)]
    refine ⟨e, ?_⟩
    rw [e, List.length_drop]
    omega
  · intro h h15
    have hgt : h.length > 10 := by omega
    have e : trim_conversation_history h 10 = h.drop 5 := by
      unfold trim_conversation_history
      rw [if_pos hgt, if_neg (by omega), h15]
    refine ⟨e, ?_⟩
    have h5 : 5 < h.length := by omega
    rw [e, List.drop_eq_getElem_cons h5, List.head?_cons, List.getElem?_eq_getElem h5]
  · intro h m
    by_cases hgt : h.length > m
    · by_cases hm : m = 0
      · subst hm
        have e : trim_conversation_history h 0 = h := by
          unfold trim_conversation_history
          rw [if_pos hgt, if_pos rfl]
        rw [e, e]
      · have e : trim_conversation_history h m = h.drop (h.length - m) := by
          unfold trim_conversation_history
          rw [if_pos hgt, if_neg hm]
        have hlen : (trim_conversation_history h m).length = m := by
          rw [e, List.length_drop]
          omega
        exact trim_of_length_le (trim_conversation_history h m) m (by omega)
    · have e : trim_conversation_history h m = h := by
        unfold trim_conversation_history
        rw [if_neg hgt]
      rw [e, e]

/-- Witness for C9: the tail-slice behaviour evaluated at the 15-element
fixture through the theorem itself. -/
theorem trim_tail_slice_semantics_witness :
    hist15.length = 15
    ∧ trim_conversation_history hist15 10 = hist15.drop 5
    ∧ (trim_conversation_history hist15 10).head? = hist15[5]?
    ∧ trim_conversation_history (trim_conversation_history hist15 10) 10
        = trim_conversation_history hist15 10 :=
  ⟨by decide,
   (trim_tail_slice_semantics.2.2.1 hist15 (by decide)).1,
   (trim_tail_slice_semantics.2.2.1 hist15 (by decide)).2,
   trim_tail_slice_semantics.2.2.2 hist15 10⟩

/-- C4 counterexample: the cohere conversion maps the role `"system"` to
`"Chatbot"`, not to `"System"` as claimed — the source maps *every* non-`user`
role to `"Chatbot"`. -/
theorem cohere_role_mapping_counterexample :
    cohere_chat_history (some [Message.mk "system" "Use metric units"])
      = [CohereMsg.mk "Chatbot" "Use metric units"]
    ∧ (cohere_chat_history (some [Message.mk "system" "Use metric units"])).map CohereMsg.role
      ≠ ["System"] := by
  exact ⟨rfl, by decide⟩

/-- C4 amended: the cohere adapter converts each history message into the
provider chat-history shape by mapping the role `"user"` to `"User"` and
*every other* role (including `"assistant"`) to `"Chatbot"`, keeping the
message content unchanged and preserving length and order. -/
theorem cohere_role_mapping_amended :
    ∀ (h : List Message) (i : Nat),
      (cohere_chat_history (some h)).length = h.length
      ∧ ((cohere_chat_history (some h))[i]?).map CohereMsg.role
          = (h[i]?).map (fun m => if m.role = "user" then "User" else "Chatbot")
      ∧ ((cohere_chat_history (some h))[i]?).map CohereMsg.message
          = (h[i]?).map Message.content := by
  intro h i
  cases h with
  | nil => simp [cohere_chat_history]
  | cons a t =>
    have e : cohere_chat_history (some (a :: t))
        = (a :: t).map (fun msg =>
            CohereMsg.mk (if msg.role = "user" then "User" else "Chatbot") msg.content) := rfl
    refine ⟨by rw [e, List.length_map], ?_, ?_⟩
    · rw [e, List.getElem?_map]
      cases (a :: t)[i]? with
      | none => rfl
      | some m => rfl
    · rw [e, List.getElem?_map]
      cases (a :: t)[i]? with
      | none => rfl
      | some m => rfl

/-- C10: for every non-empty history the openai adapter sends the history to
the backend twice — once as the leading role/content message list, and again
serialised inside the content of the final user message, whose content is
exactly `build_prompt` applied with the same history (history lines, a
newline, the persona header, the user text). -/
theorem openai_history_sent_twice :
    ∀ (h : List Message) (prompt mdl : String)
      (f : String → List Message → Except String String),
      h ≠ [] →
        openai_messages prompt (some h)
            = h ++ [Message.mk "user"
                (build_prompt "physical security consultant" prompt (some h) "")]
        ∧ build_prompt "physical security consultant" prompt (some h) ""
            = String.intercalate "\n" (h.map (fun m => m.role ++ ": " ++ m.content))
              ++ "\n" ++ "Act as a physical security consultant. " ++ prompt
        ∧ get_openai_response prompt mdl (some h) (some (OpenAIClient.mk f))
            = (match f mdl (h ++ [Message.mk "user"
                  (build_prompt "physical security consultant" prompt (some h) "")]) with
               | Except.ok r => Except.ok r
               | Except.error e => Except.error ("OpenAI API error: " ++ e)) := by
  intro h prompt mdl f hne
  cases h with
  | nil => exact absurd rfl hne
  | cons a t =>
    have h1 : openai_messages prompt (some (a :: t))
        = (a :: t) ++ [Message.mk "user"
            (build_prompt "physical security consultant" prompt (some (a :: t)) "")] := by
      show (a :: t).map (fun msg => Message.mk msg.role msg.content)
            ++ [Message.mk "user" (build_prompt "physical security consultant" prompt (some (a :: t)) "")]
          = _
      rw [message_copy_map]
    refine ⟨h1, rfl, ?_⟩
    show (match f mdl (openai_messages prompt (some (a :: t))) with
          | Except.ok r => Except.ok r
          | Except.error e => Except.error ("OpenAI API error: " ++ e)) = _
    rw [h1]

/-- Witness for C10: the double-send evaluated at the two-message fixture
history through the theorem itself. -/
theorem openai_history_sent_twice_witness :
    hist2 ≠ []
    ∧ openai_messages "Test prompt" (some hist2)
        = hist2 ++ [Message.mk "user"
            (build_prompt "physical security consultant" "Test prompt" (some hist2) "")]
    ∧ build_prompt "physical security consultant" "Test prompt" (some hist2) ""
        = "user: Hello\nassistant: Hi there\nAct as a physical security consultant. Test prompt" :=
  ⟨by decide,
   (openai_history_sent_twice hist2 "Test prompt" "gpt-4o"
      (fun _ _ => Except.ok "OpenAI response") (by decide)).1,
   by
     rw [(openai_history_sent_twice hist2 "Test prompt" "gpt-4o"
        (fun _ _ => Except.ok "OpenAI response") (by decide)).2.1]
     rfl⟩

/-- C2: under a simulated transport failure the grok and cohere adapters
*return* (rather than raise) a string beginning with `"Oops"`, and the session
loop appends that string to the history as an assistant message; the same
failure in the openai adapter raises (an `Except.error` here), and the loop
then appends no assistant message. -/
theorem soft_vs_hard_failure_asymmetry :
    ∀ (hist : List Message) (input mdl url err details : String)
      (hdrs : Option (List (String × String))),
      (get_grok_response input mdl false (some hist) (some url) hdrs
          (fun _ _ _ => GrokOutcome.reqFailure err details)
          = Except.ok (grokOopsMsg err details)
        ∧ (∃ rest, grokOopsMsg err details = "Oops" ++ rest)
        ∧ processUserTurn hist input (Except.ok (grokOopsMsg err details))
            = trim_conversation_history (hist ++ [Message.mk "user" input]) 10
              ++ [Message.mk "assistant" (grokOopsMsg err details)])
      ∧ (get_cohere_response input mdl (some hist)
            (some (CohereClient.mk (fun _ _ _ _ => Except.error err)))
          = Except.ok (cohereOopsMsg err)
        ∧ (∃ rest, cohereOopsMsg err = "Oops" ++ rest)
        ∧ processUserTurn hist input (Except.ok (cohereOopsMsg err))
            = trim_conversation_history (hist ++ [Message.mk "user" input]) 10
              ++ [Message.mk "assistant" (cohereOopsMsg err)])
      ∧ (get_openai_response input mdl (some hist)
            (some (OpenAIClient.mk (fun _ _ => Except.error err)))
          = Except.error ("OpenAI API error: " ++ err)
        ∧ processUserTurn hist input (Except.error ("OpenAI API error: " ++ err))
            = trim_conversation_history (hist ++ [Message.mk "user" input]) 10) := by
  intro hist input mdl url err details hdrs
  refine ⟨⟨rfl, ⟨_, grokOopsMsg_head err details⟩, rfl⟩,
          ⟨rfl, ⟨_, cohereOopsMsg_head err⟩, rfl⟩,
          rfl, rfl⟩

/-- C3 counterexample: with its URL handle absent the grok adapter does *not*
reject — even under a network oracle that would succeed, the call returns a
normal "Oops" reply, because `requests.post(None, ...)` raises
`MissingSchema`, a `RequestException`, which the adapter catches and converts
into its soft-failure string. -/
theorem grok_no_fail_fast_counterexample :
    get_grok_response "p" "grok-2" false none none none netOk
      = Except.ok (grokOopsMsg "Invalid URL None" "No response received")
    ∧ grokOopsMsg "Invalid URL None" "No response received"
      = "Oops, something broke! Error: Invalid URL None. Details: No response received" :=
  ⟨rfl, rfl⟩

/-- C3 amended: the openai and cohere adapters fail fast with a `ValueError`
before any client interaction when their client handle is absent; the grok
adapter performs no such check — with its URL handle absent it makes exactly
one body execution whose invalid-URL `RequestException` is caught and
converted into a normally returned "Oops" string, for every network oracle. -/
theorem adapters_fail_fast_amended :
    ∀ (prompt mdl : String) (hist : Option (List Message)),
      get_openai_response prompt mdl hist none = Except.error "OpenAI client must be provided"
      ∧ get_cohere_response prompt mdl hist none = Except.error "Cohere client must be provided"
      ∧ ∀ (ds : Bool) (hdrs : Option (List (String × String))) (net : GrokNet),
          get_grok_response prompt mdl ds hist none hdrs net
            = Except.ok (grokOopsMsg "Invalid URL None" "No response received")
          ∧ get_grok_attempts prompt mdl ds hist none hdrs net = 1 := by
  intro prompt mdl hist
  exact ⟨rfl, rfl, fun ds hdrs net => ⟨rfl, rfl⟩⟩

/-- C1 (code bug): the retry decorator is configured for up to 3 attempts
with exponential backoff clamped to [4, 10], and the embedded wrapper does
make 3 attempts when the body raises (the `badShape` case) — but when the
underlying HTTP call fails (`RequestException`), the body catches the
exception and returns the "Oops" string normally, so exactly ONE attempt is
made and no retry or backoff ever happens. -/
theorem grok_http_failure_single_attempt :
    ∀ (prompt mdl url err details : String) (ds : Bool)
      (hist : Option (List Message)) (hdrs : Option (List (String × String))),
      get_grok_attempts prompt mdl ds hist (some url) hdrs
          (fun _ _ _ => GrokOutcome.reqFailure err details) = 1
      ∧ get_grok_response prompt mdl ds hist (some url) hdrs
          (fun _ _ _ => GrokOutcome.reqFailure err details)
          = Except.ok (grokOopsMsg err details)
      ∧ get_grok_attempts prompt mdl ds hist (some url) hdrs
          (fun _ _ _ => GrokOutcome.badShape err) = 3
      ∧ grokRetryWait 1 = 4
      ∧ (∀ n : Nat, 4 ≤ grokRetryWait n ∧ grokRetryWait n ≤ 10) := by
  intro prompt mdl url err details ds hist hdrs
  refine ⟨rfl, rfl, rfl, rfl, ?_⟩
  intro n
  exact ⟨le_min (le_trans (by norm_num) (le_max_right _ _)) (by norm_num),
         min_le_right _ _⟩

/-- C6: dispatching with a service name outside the handler table fails with
the unknown-service error, and dispatching with a known service but a model
outside the declared model set of that service fails with the unsupported-model
error — in both cases for *every* configuration and network oracle, so no
adapter behaviour can influence (or be influenced by) the call, and the model
check is enforced uniformly for every service. -/
theorem dispatch_rejects_unknown_service_and_model :
    (∀ (prompt service mdl : String) (ds : Bool) (hist : Option (List Message))
        (cfg : Config) (net : GrokNet),
      ¬ SERVICE_HANDLERS.contains service →
        get_response prompt service mdl ds hist cfg net
          = Except.error ("Unknown service: " ++ service))
    ∧ (∀ (prompt service mdl : String) (ds : Bool) (hist : Option (List Message))
        (cfg : Config) (net : GrokNet),
      SERVICE_HANDLERS.contains service →
      ¬ (serviceModels service).contains mdl →
        get_response prompt service mdl ds hist cfg net
          = Except.error ("Model " ++ mdl ++ " not supported for " ++ service)) := by
  constructor
  · intro prompt service mdl ds hist cfg net hs
    unfold get_response
    rw [if_pos hs]
  · intro prompt service mdl ds hist cfg net hs hm
    unfold get_response
    rw [if_neg (fun hns => hns hs), if_pos hm]

/-- Witness for C6: both rejections evaluated at concrete inputs through the
theorem itself. -/
theorem dispatch_rejects_unknown_service_and_model_witness :
    get_response "Test prompt" "anthropic" "claude-3-opus" false (some hist2) cfg0 netOk
      = Except.error "Unknown service: anthropic"
    ∧ get_response "Test prompt" "openai" "invalid-model" false (some hist2) cfg0 netOk
      = Except.error "Model invalid-model not supported for openai" :=
  ⟨dispatch_rejects_unknown_service_and_model.1 "Test prompt" "anthropic" "claude-3-opus"
      false (some hist2) cfg0 netOk (by decide),
   dispatch_rejects_unknown_service_and_model.2 "Test prompt" "openai" "invalid-model"
      false (some hist2) cfg0 netOk (by decide) (by decide)⟩

/-- C5 counterexample: after six successful message turns from the empty
history the session history holds 11 messages — the loop trims only after the
user append, never after the assistant append, so the observation point right
after the assistant append exceeds the configured maximum of 10. -/
theorem history_bound_counterexample :
    (runSession (List.replicate 6 ("What is the best lock", Except.ok "Use a deadbolt"))).length = 11
    ∧ ¬ (runSession (List.replicate 6
          ("What is the best lock", Except.ok "Use a deadbolt"))).length ≤ 10 := by
  have e : (runSession (List.replicate 6
      ("What is the best lock", Except.ok "Use a deadbolt"))).length = 11 := rfl
  exact ⟨e, by omega⟩

/-- C5 amended: the bound 10 holds at the observation point right after the
trim that follows each user append; the observation point after an assistant
append is bounded by 11 (maximum plus the untrimmed assistant reply), and
hence every history reachable by the session loop has length at most 11. -/
theorem history_bound_amended :
    (∀ (h : List Message) (input : String),
      (trim_conversation_history (h ++ [Message.mk "user" input]) 10).length ≤ 10)
    ∧ (∀ (h : List Message) (input : String) (reply : Except String String),
      (processUserTurn h input reply).length ≤ 11)
    ∧ (∀ turns : List (String × Except String String), (runSession turns).length ≤ 11) := by
  refine ⟨fun h input => trim_length_le_ten _, processUserTurn_length_le, ?_⟩
  intro turns
  suffices H : ∀ (ts : List (String × Except String String)) (init : List Message),
      init.length ≤ 11 →
      (ts.foldl (fun h t => processUserTurn h t.fst t.snd) init).length ≤ 11 by
    exact H turns [] (by simp)
  intro ts
  induction ts with
  | nil => intro init hi; simpa using hi
  | cons t ts ih =>
    intro init hi
    exact ih (processUserTurn init t.fst t.snd) (processUserTurn_length_le init t.fst t.snd)

end Chatbot
